import Mathlib

/-!
Verification of the usage-metering and billing-reconciliation core of the
meet-sophie service: a shallow embedding of the charge pipeline in
src/api/usage.js, the entitlement check in src/api/session.js and the
billing-event handlers in src/api/stripe-webhook.js, together with theorems
about the metering ledger's behavior.

JavaScript numbers that are integral seconds are modelled as `Int`; the one
place where NaN matters (`Number(seconds_used || 0)` in usage.js) is modelled
by the sum type `JsNum`.
-/

namespace MeetSophie

/-- A `user_usage` row: the per-account ledger of the three capacity buckets
(columns selected in src/api/usage.js line 30). -/
structure Ledger where
  free_total : Int
  free_used : Int
  paid_total : Int
  paid_used : Int
  topup_balance : Int
  deriving Repr, DecidableEq

/-- The ledger inserted lazily on first usage report
(src/api/usage.js lines 37-44). -/
def defaultLedger : Ledger :=
  { free_total := 120, free_used := 0, paid_total := 0, paid_used := 0
    topup_balance := 0 }

/-- The ledger invariant stated by the spec (section 8):
used never exceeds total in either metered bucket, and the top-up pool is
never negative. -/
def Ledger.invariant (l : Ledger) : Prop :=
  l.free_used ≤ l.free_total ∧ l.paid_used ≤ l.paid_total ∧ 0 ≤ l.topup_balance

instance (l : Ledger) : Decidable l.invariant := by
  unfold Ledger.invariant
  infer_instance

/-- `Math.max(0, freeTotal - freeUsed)` (src/api/usage.js line 56). -/
def freeRemaining (l : Ledger) : Int := max 0 (l.free_total - l.free_used)

/-- `Math.max(0, paidTotal - paidUsed)` (src/api/usage.js line 57). -/
def paidRemaining (l : Ledger) : Int := max 0 (l.paid_total - l.paid_used)

/-- `Math.max(0, topupBal)` (src/api/usage.js line 58). -/
def topupRemaining (l : Ledger) : Int := max 0 l.topup_balance

/-- The remaining capacity the charger gates on and reports
(src/api/usage.js lines 60 and 97-100). -/
def totalRemaining (l : Ledger) : Int :=
  freeRemaining l + paidRemaining l + topupRemaining l

/-- The spec's own derived-remaining formula (section 3):
`(free_total-free_used) + (paid_total-paid_used) + topup_balance`,
without the per-bucket clamps the code applies. -/
def derivedRemaining (l : Ledger) : Int :=
  (l.free_total - l.free_used) + (l.paid_total - l.paid_used) + l.topup_balance

/-- The result of the JavaScript conversion `Number(seconds_used || 0)`:
either NaN (an unparseable value) or an integer. -/
inductive JsNum where
  | nan
  | num (n : Int)
  deriving Repr, DecidableEq

/-- `Math.max(0, Math.min(60 * 60, x))` (src/api/usage.js line 15); both
`Math.min` and `Math.max` propagate NaN. -/
def jsClamp : JsNum → JsNum
  | .nan => .nan
  | .num n => .num (max 0 (min 3600 n))

/-- The successful charge payload returned by usage.js (lines 102-112):
charged amount, per-bucket breakdown and the remaining total recomputed from
the freshly written row. -/
structure ChargeOk where
  charged_seconds : Int
  bucket_free : Int
  bucket_paid : Int
  bucket_topup : Int
  remaining_seconds : Int
  deriving Repr, DecidableEq

/-- A usage-report response: `{ok, ignored}` (line 16), the 402
`{error, remaining_seconds: 0}` rejection (line 62), or a successful charge. -/
inductive UsageResponse where
  | ignored_report
  | no_remaining (remaining_seconds : Int)
  | charged (r : ChargeOk)
  deriving Repr, DecidableEq

/-- The charging stage of src/api/usage.js (lines 56-112) on a loaded ledger
row: gate on remaining capacity, draw down free then paid then topup, write
back the clamped new fields, and report the breakdown together with the
remaining total of the written row. Returns the response and the row as it
ends up stored. -/
def chargeLedger (l : Ledger) (sec : Int) : UsageResponse × Ledger :=
  if totalRemaining l ≤ 0 then (.no_remaining 0, l)
  else
    let chargeFree := min (freeRemaining l) sec
    let afterFree := sec - chargeFree
    let chargePaid := min (paidRemaining l) afterFree
    let afterPaid := afterFree - chargePaid
    let chargeTopup := min (topupRemaining l) afterPaid
    let afterTopup := afterPaid - chargeTopup
    let updated : Ledger :=
      { l with
        free_used := min l.free_total (l.free_used + chargeFree)
        paid_used := min l.paid_total (l.paid_used + chargePaid)
        topup_balance := max 0 (l.topup_balance - chargeTopup) }
    (.charged
      { charged_seconds := sec - afterTopup
        bucket_free := chargeFree
        bucket_paid := chargePaid
        bucket_topup := chargeTopup
        remaining_seconds := totalRemaining updated }, updated)

/-- The request handler of src/api/usage.js after authentication: clamp the
reported amount, ignore falsy results (NaN or 0), lazily insert the default
ledger when the account has none, then charge. The second component is the
stored row after the request (`none` when no row was ever created). -/
def usageHandler (secondsUsed : JsNum) (stored : Option Ledger) :
    UsageResponse × Option Ledger :=
  match jsClamp secondsUsed with
  | .nan => (.ignored_report, stored)
  | .num sec =>
    if sec = 0 then (.ignored_report, stored)
    else
      let l := stored.getD defaultLedger
      let result := chargeLedger l sec
      (result.1, some result.2)

/-- A `user_subscriptions` row (columns written by src/api/stripe-webhook.js
lines 244-257 and read by src/api/session.js lines 31-35). -/
structure SubRow where
  status : String
  is_active : Bool
  plan : Option String
  stripe_customer_id : Option String
  stripe_subscription_id : Option String
  current_period_end : Option Int
  deriving Repr, DecidableEq

/-- src/api/usage.js never queries `user_subscriptions`: the usage-report
handler is the same function whatever subscription row the account holds, so
the account's subscription row is an ignored argument. -/
def usageHandlerForAccount (_sub : Option SubRow) (secondsUsed : JsNum)
    (stored : Option Ledger) : UsageResponse × Option Ledger :=
  usageHandler secondsUsed stored

/-- Projection: the charged amount of a successful response. -/
def UsageResponse.chargedSeconds : UsageResponse → Option Int
  | .charged r => some r.charged_seconds
  | _ => none

/-- Projection: the per-bucket breakdown of a successful response. -/
def UsageResponse.buckets : UsageResponse → Option (Int × Int × Int)
  | .charged r => some (r.bucket_free, r.bucket_paid, r.bucket_topup)
  | _ => none

/-- `isPremium = !!sub?.is_active || sub?.status === "active" ||
sub?.status === "trialing"` (src/api/session.js line 40). -/
def isPremiumOf (sub : Option SubRow) : Bool :=
  match sub with
  | none => false
  | some s => s.is_active || s.status = "active" || s.status = "trialing"

/-- A session/entitlement response: the 402 `Free limit reached` rejection
(src/api/session.js lines 62-68) or a granted session carrying
`remaining_seconds` and `is_premium` (lines 291-297). -/
inductive SessionResult where
  | limitReached (remaining_seconds : Int) (is_premium : Bool)
  | granted (remaining_seconds : Int) (is_premium : Bool)
  deriving Repr, DecidableEq

/-- `usage?.free_seconds_total ?? 900` (src/api/session.js line 58). -/
def sessionFreeTotal (usage : Option Ledger) : Int :=
  match usage with
  | none => 900
  | some l => l.free_total

/-- `usage?.free_seconds_used ?? 0` (src/api/session.js line 59). -/
def sessionFreeUsed (usage : Option Ledger) : Int :=
  match usage with
  | none => 0
  | some l => l.free_used

/-- The entitlement gate of src/api/session.js (lines 27-69): premium
accounts get a practically unlimited remaining of 999999; non-premium
accounts get `max 0 (free_total - free_used)` from the free bucket only and
are rejected when that is not positive. -/
def sessionHandler (sub : Option SubRow) (usage : Option Ledger) :
    SessionResult :=
  if isPremiumOf sub then .granted 999999 true
  else
    let remaining := max 0 (sessionFreeTotal usage - sessionFreeUsed usage)
    if remaining ≤ 0 then .limitReached 0 false
    else .granted remaining false

/-- `includedSecondsForPlan` (src/api/stripe-webhook.js lines 111-116), on
the already lowercased/trimmed plan string. -/
def includedSecondsForPlan (plan : String) : Int :=
  if plan = "starter" then 120 * 60
  else if plan = "plus" then 300 * 60
  else 0

/-- `topupSecondsForPack` (src/api/stripe-webhook.js lines 118-125); a
missing pack converts to NaN which matches no tier, yielding 0. -/
def topupSecondsForPack (pack : Option Int) : Int :=
  match pack with
  | none => 0
  | some k =>
    if k = 5 then 60 * 60
    else if k = 10 then 140 * 60
    else if k = 20 then 320 * 60
    else 0

/-- The ledger write of the subscription-checkout branch
(src/api/stripe-webhook.js lines 264-302): insert a default-free row carrying
the included allotment when no row exists, else set `paid_seconds_total` to
the allotment and reset `paid_seconds_used` to 0. -/
def applySubscriptionCheckout (includedSeconds : Int) (stored : Option Ledger) :
    Ledger :=
  match stored with
  | none =>
    { free_total := 120, free_used := 0, paid_total := includedSeconds
      paid_used := 0, topup_balance := 0 }
  | some l => { l with paid_total := includedSeconds, paid_used := 0 }

/-- The ledger write of the top-up branch (src/api/stripe-webhook.js lines
325-361): insert a default-free row whose top-up balance is the purchased
amount when no row exists, else add the purchased amount to the balance. -/
def applyTopup (addSeconds : Int) (stored : Option Ledger) : Ledger :=
  match stored with
  | none =>
    { free_total := 120, free_used := 0, paid_total := 0, paid_used := 0
      topup_balance := addSeconds }
  | some l => { l with topup_balance := l.topup_balance + addSeconds }

/-- Whether the webhook run acknowledged the event (HTTP 200, no redelivery)
or failed it (HTTP 500, provider retries). -/
inductive WebhookOutcome where
  | ack
  | fail
  deriving Repr, DecidableEq

/-- The persisted state of one account: its subscription-status row and its
ledger row, each possibly absent. -/
structure AccountState where
  sub : Option SubRow
  ledger : Option Ledger
  deriving Repr, DecidableEq

/-- A billing event as resolved by src/api/stripe-webhook.js: the four kinds
the handler acts on. For the subscription checkout, `plan` is the plan string
after the metadata/price-id resolution chain. -/
inductive BillingEvent where
  | checkoutSubscriptionCompleted (plan : String) (customerId : Option String)
      (subscriptionId : Option String)
  | checkoutTopupCompleted (pack : Option Int)
  | subscriptionUpdated (subscriptionId : String) (customerId : Option String)
      (status : String) (periodEnd : Option Int)
  | subscriptionDeleted (subscriptionId : String)
  deriving Repr, DecidableEq

/-- The `eq("stripe_subscription_id", id).maybeSingle()` lookup used by the
lifecycle branches (src/api/stripe-webhook.js lines 390-394 and 438-442). -/
def subMatches (st : AccountState) (subscriptionId : String) : Option SubRow :=
  match st.sub with
  | some row =>
    if row.stripe_subscription_id = some subscriptionId then some row else none
  | none => none

/-- The event handlers of src/api/stripe-webhook.js (lines 182-478) as a
transition on one account's state, returning the HTTP outcome and the state
after the run:
subscription checkout refuses activation (500, no writes) when no included
seconds resolve, else upserts the subscription row active and rewrites the
paid allotment; top-up with an unknown pack is absorbed (200, no writes),
else credits the balance; the two lifecycle events are no-ops for an
untracked subscription id, else rewrite the status fields and leave the
ledger untouched. -/
def applyEvent (e : BillingEvent) (st : AccountState) :
    WebhookOutcome × AccountState :=
  match e with
  | .checkoutSubscriptionCompleted plan customerId subscriptionId =>
    let includedSeconds := includedSecondsForPlan plan
    if includedSeconds = 0 then (.fail, st)
    else
      let subRow : SubRow :=
        { status := "active", is_active := true
          plan := if plan = "" then none else some plan
          stripe_customer_id := customerId
          stripe_subscription_id := subscriptionId
          current_period_end := none }
      (.ack, ⟨some subRow, some (applySubscriptionCheckout includedSeconds st.ledger)⟩)
  | .checkoutTopupCompleted pack =>
    let addSeconds := topupSecondsForPack pack
    if addSeconds ≤ 0 then (.ack, st)
    else (.ack, ⟨st.sub, some (applyTopup addSeconds st.ledger)⟩)
  | .subscriptionUpdated subscriptionId customerId status periodEnd =>
    match subMatches st subscriptionId with
    | none => (.ack, st)
    | some row =>
      (.ack, ⟨some { row with
                stripe_customer_id := customerId
                status := status
                is_active := status = "active" || status = "trialing"
                current_period_end := periodEnd }, st.ledger⟩)
  | .subscriptionDeleted subscriptionId =>
    match subMatches st subscriptionId with
    | none => (.ack, st)
    | some row =>
      (.ack, ⟨some { row with
                status := "canceled"
                is_active := false
                current_period_end := none }, st.ledger⟩)

/-- The fields of a `checkout.session.completed` payload the handler reads
(src/api/stripe-webhook.js lines 188-198 and 316). -/
structure CheckoutSession where
  metadata_user_id : Option String
  mode : Option String
  metadata_plan : Option String
  metadata_topup_pack : Option Int
  customer : Option String
  subscription : Option String
  deriving Repr, DecidableEq

/-- The plan resolution chain (src/api/stripe-webhook.js lines 204-223):
session metadata first; when that is empty or `"0"` and a subscription id is
present, fall back to the plan recoverable from the external subscription
object (its metadata, then its price-id mapping), collapsed here into the
`externalPlan` argument since that lookup is a provider call. -/
def resolvePlan (sess : CheckoutSession) (externalPlan : String) : String :=
  let p := (sess.metadata_plan.getD "").toLower.trim
  if (p = "" ∨ p = "0") ∧ sess.subscription ≠ none then externalPlan else p

/-- The `checkout.session.completed` branch of src/api/stripe-webhook.js
(lines 187-376): a payload with no `metadata.user_id` is acknowledged with no
state change; otherwise the session mode dispatches to the subscription or
top-up handler, and an unknown mode is acknowledged with no state change. -/
def handleCheckoutCompleted (sess : CheckoutSession) (externalPlan : String)
    (st : AccountState) : WebhookOutcome × AccountState :=
  match sess.metadata_user_id with
  | none => (.ack, st)
  | some _ =>
    if sess.mode = some "subscription" then
      applyEvent (.checkoutSubscriptionCompleted (resolvePlan sess externalPlan)
        sess.customer sess.subscription) st
    else if sess.mode = some "payment" then
      applyEvent (.checkoutTopupCompleted sess.metadata_topup_pack) st
    else (.ack, st)

/-- Projection: the top-up balance visible in an account state (0 when the
account has no ledger row). -/
def topupBalanceOf (st : AccountState) : Int :=
  match st.ledger with
  | none => 0
  | some l => l.topup_balance

/-! ## Helper lemmas -/

/-- For a positive in-range amount the usage handler is the charging stage on
the loaded row: the clamp is the identity and the falsy gate does not fire. -/
theorem usageHandler_eq_charge (l : Ledger) (s : Int) (hs : 0 < s)
    (hs2 : s ≤ 3600) :
    usageHandler (.num s) (some l)
      = ((chargeLedger l s).1, some (chargeLedger l s).2) := by
  have hc : max 0 (min 3600 s) = s := by omega
  simp only [usageHandler, jsClamp, hc, Option.getD]
  rw [if_neg (by omega)]

/-- In the non-exhausted case the charger emits the min-cascade breakdown and
the clamped updated row. -/
theorem chargeLedger_pos_eq (l : Ledger) (s : Int)
    (hrem : 0 < totalRemaining l) :
    chargeLedger l s =
      (.charged
        { charged_seconds :=
            s - (s - min (freeRemaining l) s
                   - min (paidRemaining l) (s - min (freeRemaining l) s)
                   - min (topupRemaining l)
                       (s - min (freeRemaining l) s
                          - min (paidRemaining l) (s - min (freeRemaining l) s)))
          bucket_free := min (freeRemaining l) s
          bucket_paid := min (paidRemaining l) (s - min (freeRemaining l) s)
          bucket_topup :=
            min (topupRemaining l)
              (s - min (freeRemaining l) s
                 - min (paidRemaining l) (s - min (freeRemaining l) s))
          remaining_seconds := totalRemaining
            { l with
              free_used := min l.free_total (l.free_used + min (freeRemaining l) s)
              paid_used := min l.paid_total
                (l.paid_used + min (paidRemaining l) (s - min (freeRemaining l) s))
              topup_balance := max 0 (l.topup_balance
                - min (topupRemaining l)
                    (s - min (freeRemaining l) s
                       - min (paidRemaining l) (s - min (freeRemaining l) s))) } },
       { l with
         free_used := min l.free_total (l.free_used + min (freeRemaining l) s)
         paid_used := min l.paid_total
           (l.paid_used + min (paidRemaining l) (s - min (freeRemaining l) s))
         topup_balance := max 0 (l.topup_balance
           - min (topupRemaining l)
               (s - min (freeRemaining l) s
                  - min (paidRemaining l) (s - min (freeRemaining l) s))) }) := by
  unfold chargeLedger
  rw [if_neg (by omega)]

/-- When the whole request fits in the remaining capacity, the charge is the
full request and the stored remaining drops by exactly that amount. -/
theorem chargeLedger_within (l : Ledger) (s : Int) (hinv : l.invariant)
    (hs : 0 < s) (hrem : s ≤ totalRemaining l) :
    ((chargeLedger l s).1).chargedSeconds = some s ∧
    totalRemaining (chargeLedger l s).2 = totalRemaining l - s := by
  obtain ⟨h1, h2, h3⟩ := hinv
  rw [chargeLedger_pos_eq l s (by omega)]
  simp only [UsageResponse.chargedSeconds, Option.some.injEq, totalRemaining,
    freeRemaining, paidRemaining, topupRemaining] at hrem ⊢
  constructor <;> omega

/-- When the request exceeds the remaining capacity, the charge is exactly
the remaining capacity and the stored remaining drops to zero. -/
theorem chargeLedger_over (l : Ledger) (s : Int) (hinv : l.invariant)
    (h0 : 0 < totalRemaining l) (hlt : totalRemaining l < s) :
    ((chargeLedger l s).1).chargedSeconds = some (totalRemaining l) ∧
    totalRemaining (chargeLedger l s).2 = 0 := by
  obtain ⟨h1, h2, h3⟩ := hinv
  rw [chargeLedger_pos_eq l s h0]
  simp only [UsageResponse.chargedSeconds, Option.some.injEq, totalRemaining,
    freeRemaining, paidRemaining, topupRemaining] at h0 hlt ⊢
  constructor <;> omega

/-- Rewriting the paid allotment is idempotent: a second identical
subscription-checkout ledger write leaves the row as the first wrote it. -/
theorem applySubscriptionCheckout_idem (i : Int) (stored : Option Ledger) :
    applySubscriptionCheckout i (some (applySubscriptionCheckout i stored))
      = applySubscriptionCheckout i stored := by
  cases stored <;> rfl

/-- The subscription-checkout ledger write always leaves `paid_total` at the
included allotment and `paid_used` at zero. -/
theorem applySubscriptionCheckout_paid (i : Int) (stored : Option Ledger) :
    (applySubscriptionCheckout i stored).paid_total = i ∧
    (applySubscriptionCheckout i stored).paid_used = 0 := by
  cases stored <;> exact ⟨rfl, rfl⟩

/-! ## Claim theorems -/

/-- C1, counterexample: an account holding an active subscription row reports
50 seconds on the fresh default ledger, and the charger — which never reads
the subscription row — charges 50 seconds (not 0, and with no premium flag)
and decrements `free_used` from 0 to 50: there is no premium bypass in the
usage charger. -/
theorem c1_premium_bypass_counterexample :
    ((usageHandlerForAccount
        (some ⟨"active", true, some "starter", none, none, none⟩)
        (.num 50) (some defaultLedger)).1)
      = .charged ⟨50, 50, 0, 0, 70⟩ ∧
    ((usageHandlerForAccount
        (some ⟨"active", true, some "starter", none, none, none⟩)
        (.num 50) (some defaultLedger)).2)
      = some ⟨120, 50, 0, 0, 0⟩ := by
  constructor <;> decide

/-- C1, amended: the usage charger ignores the account's subscription status
entirely — the premium bypass exists only in the session/entitlement check —
so an active/trialing account with a positive in-range report within its
remaining capacity is charged the full amount, exactly like a non-premium
account (the response is independent of the subscription row). -/
theorem c1_charger_ignores_premium (sub : Option SubRow) (l : Ledger) (s : Int)
    (hinv : l.invariant) (hs : 0 < s) (hs2 : s ≤ 3600)
    (hrem : s ≤ totalRemaining l) :
    ((usageHandlerForAccount sub (.num s) (some l)).1).chargedSeconds = some s ∧
    ∀ otherSub, usageHandlerForAccount otherSub (.num s) (some l)
        = usageHandlerForAccount sub (.num s) (some l) := by
  constructor
  · show ((usageHandler (.num s) (some l)).1).chargedSeconds = some s
    rw [usageHandler_eq_charge l s hs hs2]
    exact (chargeLedger_within l s hinv hs hrem).1
  · intro otherSub
    rfl

/-- C1 witness. -/
theorem c1_charger_ignores_premium_witness :
    defaultLedger.invariant ∧ (0 : Int) < 50 ∧ (50 : Int) ≤ 3600 ∧
    (50 : Int) ≤ totalRemaining defaultLedger ∧
    ((usageHandlerForAccount
        (some ⟨"active", true, some "starter", none, none, none⟩)
        (.num 50) (some defaultLedger)).1).chargedSeconds = some 50 :=
  ⟨by decide, by decide, by decide, by decide,
    (c1_charger_ignores_premium
      (some ⟨"active", true, some "starter", none, none, none⟩)
      defaultLedger 50 (by decide) (by decide) (by decide) (by decide)).1⟩

/-- C2: for a positive clamped amount with positive remaining capacity, the
draw-down is the fixed free → paid → topup min-cascade: each bucket absorbs
the minimum of its remaining and the amount still to charge. -/
theorem c2_drawdown_order (l : Ledger) (s : Int) (_hs : 0 < s)
    (hrem : 0 < totalRemaining l) :
    ((chargeLedger l s).1).buckets
      = some (min (freeRemaining l) s,
          min (paidRemaining l) (s - min (freeRemaining l) s),
          min (topupRemaining l)
            (s - min (freeRemaining l) s
               - min (paidRemaining l) (s - min (freeRemaining l) s))) := by
  rw [chargeLedger_pos_eq l s hrem]
  rfl

/-- C2 witness: the spec's worked example — free remaining 10, paid remaining
5, topup remaining 100, charge 12 — yields the breakdown free 10, paid 2,
topup 0. -/
theorem c2_drawdown_order_witness :
    (0 : Int) < 12 ∧
    0 < totalRemaining ⟨10, 0, 5, 0, 100⟩ ∧
    ((chargeLedger ⟨10, 0, 5, 0, 100⟩ 12).1).buckets = some (10, 2, 0) := by
  refine ⟨by decide, by decide, ?_⟩
  rw [c2_drawdown_order ⟨10, 0, 5, 0, 100⟩ 12 (by decide) (by decide)]
  decide

/-- C3: a non-premium charge of a positive clamped amount `s` on an existing
invariant-satisfying ledger reports `charged = s` and drops the stored
remaining by exactly `s` when `s` fits the remaining capacity; when the
capacity is positive but smaller than `s`, it reports `charged = remaining`
and leaves the stored remaining at 0 — the excess is discarded, not an
error. -/
theorem c3_charge_caps_to_remaining (l : Ledger) (s : Int)
    (hinv : l.invariant) (hs : 0 < s) (hs2 : s ≤ 3600) :
    (s ≤ totalRemaining l →
      ((usageHandler (.num s) (some l)).1).chargedSeconds = some s ∧
      ∃ l2, (usageHandler (.num s) (some l)).2 = some l2 ∧
        totalRemaining l2 = totalRemaining l - s) ∧
    (0 < totalRemaining l → totalRemaining l < s →
      ((usageHandler (.num s) (some l)).1).chargedSeconds
          = some (totalRemaining l) ∧
      ∃ l2, (usageHandler (.num s) (some l)).2 = some l2 ∧
        totalRemaining l2 = 0) := by
  rw [usageHandler_eq_charge l s hs hs2]
  constructor
  · intro hle
    exact ⟨(chargeLedger_within l s hinv hs hle).1,
      (chargeLedger l s).2, rfl, (chargeLedger_within l s hinv hs hle).2⟩
  · intro h0 hlt
    exact ⟨(chargeLedger_over l s hinv h0 hlt).1,
      (chargeLedger l s).2, rfl, (chargeLedger_over l s hinv h0 hlt).2⟩

/-- C3 witness: the spec's fresh-account scenario — 50 seconds on the default
ledger charges 50 and leaves remaining 70 = 120 - 50. -/
theorem c3_charge_caps_to_remaining_witness :
    defaultLedger.invariant ∧ (0 : Int) < 50 ∧ (50 : Int) ≤ 3600 ∧
    (50 : Int) ≤ totalRemaining defaultLedger ∧
    ((usageHandler (.num 50) (some defaultLedger)).1).chargedSeconds
        = some 50 ∧
    ∃ l2, (usageHandler (.num 50) (some defaultLedger)).2 = some l2 ∧
      totalRemaining l2 = totalRemaining defaultLedger - 50 :=
  ⟨by decide, by decide, by decide, by decide,
    ((c3_charge_caps_to_remaining defaultLedger 50 (by decide) (by decide)
        (by decide)).1 (by decide)).1,
    ((c3_charge_caps_to_remaining defaultLedger 50 (by decide) (by decide)
        (by decide)).1 (by decide)).2⟩

/-- C4: a positive clamped charge on an existing ledger with no remaining
capacity is rejected as exhausted reporting remaining 0, and the stored row
is unchanged — no partial charge. -/
theorem c4_exhausted_rejected (l : Ledger) (s : Int) (hs : 0 < s)
    (hs2 : s ≤ 3600) (hrem : totalRemaining l ≤ 0) :
    usageHandler (.num s) (some l) = (.no_remaining 0, some l) := by
  rw [usageHandler_eq_charge l s hs hs2]
  unfold chargeLedger
  rw [if_pos hrem]

/-- C4 witness: the spec's exhausted scenario — free fully consumed, nothing
paid, no top-up: a 10-second report is rejected and the row unchanged. -/
theorem c4_exhausted_rejected_witness :
    (0 : Int) < 10 ∧ (10 : Int) ≤ 3600 ∧
    totalRemaining ⟨120, 120, 0, 0, 0⟩ ≤ 0 ∧
    usageHandler (.num 10) (some ⟨120, 120, 0, 0, 0⟩)
      = (.no_remaining 0, some ⟨120, 120, 0, 0, 0⟩) :=
  ⟨by decide, by decide, by decide,
    c4_exhausted_rejected ⟨120, 120, 0, 0, 0⟩ 10 (by decide) (by decide)
      (by decide)⟩

/-- C5: every ledger write — lazy creation of the default row, the usage
charge, the subscription-checkout allotment rewrite (insert and update), and
the top-up credit (insert and update) — yields a row satisfying
`free_used ≤ free_total ∧ paid_used ≤ paid_total ∧ 0 ≤ topup_balance`, for
every nonnegative credited amount and every input row satisfying it. -/
theorem c5_writes_preserve_invariant :
    defaultLedger.invariant ∧
    (∀ l s, l.invariant → ((chargeLedger l s).2).invariant) ∧
    (∀ i l, 0 ≤ i → l.invariant →
      (applySubscriptionCheckout i (some l)).invariant) ∧
    (∀ i, 0 ≤ i → (applySubscriptionCheckout i none).invariant) ∧
    (∀ a l, 0 ≤ a → l.invariant → (applyTopup a (some l)).invariant) ∧
    (∀ a, 0 ≤ a → (applyTopup a none).invariant) := by
  refine ⟨by decide, ?_, ?_, ?_, ?_, ?_⟩
  · intro l s h
    by_cases hrem : totalRemaining l ≤ 0
    · unfold chargeLedger
      rw [if_pos hrem]
      exact h
    · rw [chargeLedger_pos_eq l s (by omega)]
      simp only [Ledger.invariant] at h ⊢
      omega
  · intro i l hi h
    simp only [applySubscriptionCheckout, Ledger.invariant] at h ⊢
    omega
  · intro i hi
    simp only [applySubscriptionCheckout, Ledger.invariant]
    omega
  · intro a l ha h
    simp only [applyTopup, Ledger.invariant] at h ⊢
    omega
  · intro a ha
    simp only [applyTopup, Ledger.invariant]
    omega

/-- C5 witness. -/
theorem c5_writes_preserve_invariant_witness :
    defaultLedger.invariant ∧
    ((chargeLedger defaultLedger 50).2).invariant ∧
    (applySubscriptionCheckout 7200 (some defaultLedger)).invariant ∧
    (applySubscriptionCheckout 7200 none).invariant ∧
    (applyTopup 3600 (some defaultLedger)).invariant ∧
    (applyTopup 3600 none).invariant :=
  ⟨c5_writes_preserve_invariant.1,
    c5_writes_preserve_invariant.2.1 defaultLedger 50 (by decide),
    c5_writes_preserve_invariant.2.2.1 7200 defaultLedger (by decide) (by decide),
    c5_writes_preserve_invariant.2.2.2.1 7200 (by decide),
    c5_writes_preserve_invariant.2.2.2.2.1 3600 defaultLedger (by decide) (by decide),
    c5_writes_preserve_invariant.2.2.2.2.2 3600 (by decide)⟩

/-- C6, counterexample: a non-premium account whose ledger has the free
bucket exhausted but 100 paid seconds and 50 top-up seconds left — derived
remaining 150 — is nevertheless rejected by the session check as exhausted
with remaining 0: the session check does not compute the three-bucket derived
remaining and does not reject exactly when it is nonpositive. -/
theorem c6_session_remaining_counterexample :
    sessionHandler none (some ⟨120, 120, 100, 0, 50⟩) = .limitReached 0 false ∧
    derivedRemaining ⟨120, 120, 100, 0, 50⟩ = 150 := by
  constructor <;> decide

/-- C6, amended: for an authenticated non-premium account the session check
computes `remaining_seconds` from the free bucket only, as
`max 0 (free_total - free_used)` (defaults 900 and 0 when no ledger row
exists), and rejects with the exhausted condition exactly when that value is
nonpositive. -/
theorem c6_session_remaining_free_only (sub : Option SubRow)
    (usage : Option Ledger) (h : isPremiumOf sub = false) :
    (max 0 (sessionFreeTotal usage - sessionFreeUsed usage) ≤ 0 →
      sessionHandler sub usage = .limitReached 0 false) ∧
    (0 < max 0 (sessionFreeTotal usage - sessionFreeUsed usage) →
      sessionHandler sub usage
        = .granted (max 0 (sessionFreeTotal usage - sessionFreeUsed usage))
            false) := by
  unfold sessionHandler
  rw [h]
  simp only [Bool.false_eq_true, if_false]
  constructor
  · intro hle
    rw [if_pos hle]
  · intro hpos
    rw [if_neg (by omega)]

/-- C6 witness. -/
theorem c6_session_remaining_free_only_witness :
    isPremiumOf none = false ∧
    max 0 (sessionFreeTotal (some ⟨120, 120, 0, 0, 0⟩)
      - sessionFreeUsed (some ⟨120, 120, 0, 0, 0⟩)) ≤ 0 ∧
    sessionHandler none (some ⟨120, 120, 0, 0, 0⟩) = .limitReached 0 false :=
  ⟨by decide, by decide,
    (c6_session_remaining_free_only none (some ⟨120, 120, 0, 0, 0⟩)
      (by decide)).1 (by decide)⟩

/-- C7, counterexample: redelivering the same `checkout_topup_completed`
event (pack 5) to an account with the default ledger credits the balance a
second time — 7200 instead of 3600 seconds — so applying it twice does not
equal applying it once: not every billing handler is idempotent. -/
theorem c7_idempotency_counterexample :
    (applyEvent (.checkoutTopupCompleted (some 5))
        ((applyEvent (.checkoutTopupCompleted (some 5))
          ⟨none, some defaultLedger⟩).2)).2
      ≠ (applyEvent (.checkoutTopupCompleted (some 5))
          ⟨none, some defaultLedger⟩).2 := by
  decide

/-- C7, amended: the `checkout_subscription_completed`,
`subscription_updated` and `subscription_deleted` handlers are idempotent —
applying the same event twice in succession yields the same
subscription-status and ledger state as applying it once — but the
`checkout_topup_completed` handler is not: every application with a valid
pack adds the pack's seconds to the top-up balance again, so redelivery
double-credits. -/
theorem c7_handlers_idempotent_except_topup :
    (∀ plan cid sid st,
      applyEvent (.checkoutSubscriptionCompleted plan cid sid)
          ((applyEvent (.checkoutSubscriptionCompleted plan cid sid) st).2)
        = applyEvent (.checkoutSubscriptionCompleted plan cid sid) st) ∧
    (∀ sid cid status pe st,
      applyEvent (.subscriptionUpdated sid cid status pe)
          ((applyEvent (.subscriptionUpdated sid cid status pe) st).2)
        = applyEvent (.subscriptionUpdated sid cid status pe) st) ∧
    (∀ sid st,
      applyEvent (.subscriptionDeleted sid)
          ((applyEvent (.subscriptionDeleted sid) st).2)
        = applyEvent (.subscriptionDeleted sid) st) ∧
    (∀ pack st, 0 < topupSecondsForPack pack →
      topupBalanceOf (applyEvent (.checkoutTopupCompleted pack) st).2
        = topupBalanceOf st + topupSecondsForPack pack) := by
  refine ⟨?_, ?_, ?_, ?_⟩
  · intro plan cid sid st
    by_cases hp : includedSecondsForPlan plan = 0
    · simp [applyEvent, hp]
    · simp [applyEvent, hp, applySubscriptionCheckout_idem]
  · intro sid cid status pe st
    cases hsub : st.sub with
    | none => simp [applyEvent, subMatches, hsub]
    | some row =>
      by_cases hm : row.stripe_subscription_id = some sid
      · simp [applyEvent, subMatches, hsub, hm]
      · simp [applyEvent, subMatches, hsub, hm]
  · intro sid st
    cases hsub : st.sub with
    | none => simp [applyEvent, subMatches, hsub]
    | some row =>
      by_cases hm : row.stripe_subscription_id = some sid
      · simp [applyEvent, subMatches, hsub, hm]
      · simp [applyEvent, subMatches, hsub, hm]
  · intro pack st hpos
    simp only [applyEvent]
    rw [if_neg (by omega)]
    cases hl : st.ledger with
    | none => simp [topupBalanceOf, applyTopup, hl]
    | some l => simp [topupBalanceOf, applyTopup, hl]

/-- C7 witness. -/
theorem c7_handlers_idempotent_except_topup_witness :
    (0 : Int) < topupSecondsForPack (some 5) ∧
    topupBalanceOf (applyEvent (.checkoutTopupCompleted (some 5))
        ⟨none, some defaultLedger⟩).2
      = topupBalanceOf ⟨none, some defaultLedger⟩
        + topupSecondsForPack (some 5) :=
  ⟨by decide,
    c7_handlers_idempotent_except_topup.2.2.2 (some 5)
      ⟨none, some defaultLedger⟩ (by decide)⟩

/-- C8: replaying the same `checkout_subscription_completed` event (same
plan, same subscription id) with a resolvable allotment leaves the account —
subscription-status row and ledger row — in the same state as applying it
once, and the resulting ledger has `paid_total` at the plan's included
seconds and `paid_used` reset to 0. -/
theorem c8_subscription_checkout_replay (plan : String)
    (cid sid : Option String) (st : AccountState)
    (h : includedSecondsForPlan plan ≠ 0) :
    (applyEvent (.checkoutSubscriptionCompleted plan cid sid)
        ((applyEvent (.checkoutSubscriptionCompleted plan cid sid) st).2)).2
      = (applyEvent (.checkoutSubscriptionCompleted plan cid sid) st).2 ∧
    ∃ l, ((applyEvent (.checkoutSubscriptionCompleted plan cid sid) st).2).ledger
        = some l ∧
      l.paid_total = includedSecondsForPlan plan ∧ l.paid_used = 0 := by
  constructor
  · simp [applyEvent, h, applySubscriptionCheckout_idem]
  · refine ⟨applySubscriptionCheckout (includedSecondsForPlan plan) st.ledger,
      ?_, applySubscriptionCheckout_paid _ _⟩
    simp [applyEvent, h]

/-- C8 witness. -/
theorem c8_subscription_checkout_replay_witness :
    includedSecondsForPlan "starter" ≠ 0 ∧
    (applyEvent (.checkoutSubscriptionCompleted "starter" none (some "sub1"))
        ((applyEvent (.checkoutSubscriptionCompleted "starter" none
          (some "sub1")) ⟨none, none⟩).2)).2
      = (applyEvent (.checkoutSubscriptionCompleted "starter" none
          (some "sub1")) ⟨none, none⟩).2 ∧
    ∃ l, ((applyEvent (.checkoutSubscriptionCompleted "starter" none
          (some "sub1")) ⟨none, none⟩).2).ledger = some l ∧
      l.paid_total = includedSecondsForPlan "starter" ∧ l.paid_used = 0 :=
  ⟨by decide,
    (c8_subscription_checkout_replay "starter" none (some "sub1") ⟨none, none⟩
      (by decide)).1,
    (c8_subscription_checkout_replay "starter" none (some "sub1") ⟨none, none⟩
      (by decide)).2⟩

/-- C9: a usage report whose `seconds_used` converts to NaN (absent field, or
an unparseable value) or to 0 is answered with the ignored success response
and performs no ledger read-modify-write: the stored state — including a
still-absent row — is returned untouched. -/
theorem c9_malformed_report_ignored (stored : Option Ledger) :
    usageHandler .nan stored = (.ignored_report, stored) ∧
    usageHandler (.num 0) stored = (.ignored_report, stored) := by
  constructor <;> rfl

/-- C10: a signature-verified `checkout.session.completed` event carrying no
`metadata.user_id` is acknowledged (HTTP 200, so the provider requests no
retry) and changes neither the subscription-status row nor the ledger row. -/
theorem c10_missing_user_id_acknowledged (sess : CheckoutSession)
    (externalPlan : String) (st : AccountState)
    (h : sess.metadata_user_id = none) :
    handleCheckoutCompleted sess externalPlan st = (.ack, st) := by
  unfold handleCheckoutCompleted
  rw [h]

/-- C10 witness. -/
theorem c10_missing_user_id_acknowledged_witness :
    (CheckoutSession.mk none (some "subscription") (some "starter") none
        none (some "sub1")).metadata_user_id = none ∧
    handleCheckoutCompleted
        (CheckoutSession.mk none (some "subscription") (some "starter") none
          none (some "sub1")) "plus" ⟨none, some defaultLedger⟩
      = (.ack, ⟨none, some defaultLedger⟩) :=
  ⟨rfl,
    c10_missing_user_id_acknowledged
      (CheckoutSession.mk none (some "subscription") (some "starter") none
        none (some "sub1")) "plus" ⟨none, some defaultLedger⟩ rfl⟩

end MeetSophie
